import Mathlib

/-!
Verification development for the Zacharska real-estate listings server.

The repository holds four near-duplicate Express servers:

* variant A (src/server.js lines 1-216): JSON-file store, express-session auth,
  a facebook-reviews proxy with a one-slot in-process cache;
* variant B (src/server.js lines 217-480): Postgres store, no auth gate on the
  mutating routes (the file's header says the panel is hidden by URL only);
* variant C (src/server.js lines 481-728): Postgres store, `admin_auth` cookie
  gate (`requireAdmin`), login sets the cookie;
* variant D (src/unnamed/part_000): Postgres store, `x-admin-pass` header gate,
  one image per listing via the `image_id` column.

The embedding below is shallow: request handlers become pure functions from an
explicit store state (plus the request data the handler reads) to a response
and a new state.  JavaScript string/number coercions are modelled explicitly;
`Option` stands for JavaScript `undefined`/`null`.  Numeric form input is
modelled by integer-valued strings: a non-integer numeric such as "12.5" would
fail the INTEGER bind downstream exactly as NaN does, so both are folded into
the NaN case of `jsNumber`.
-/

namespace Zacharska

/-- JavaScript truthiness of an optional string: `undefined` and `""` are falsy. -/
def jsTruthy : Option String → Bool
  | none => false
  | some s => !(s = "")

/-- JavaScript `a || b` over optional strings: `a` when truthy, else `b`. -/
def jsOrStr (a b : Option String) : Option String :=
  if jsTruthy a then a else b

/-- Digit-sequence parser (structural recursion so that concrete requests
evaluate by kernel reduction). -/
def parseNatChars : List Char → Nat → Option Nat
  | [], acc => some acc
  | c :: cs, acc =>
    if c.isDigit then parseNatChars cs (acc * 10 + (c.toNat - 48)) else none

/-- Integer parser over a character list: optional minus sign, then digits. -/
def parseIntChars : List Char → Option Int
  | [] => none
  | '-' :: cs =>
    match cs with
    | [] => none
    | _ => (parseNatChars cs 0).map (fun n => -(n : Int))
  | cs => (parseNatChars cs 0).map (fun n => (n : Int))

/-- JavaScript `Number(s)` restricted to integer results: `""` coerces to `0`,
an integer literal parses, anything else is NaN (`none`). -/
def jsNumber (s : String) : Option Int :=
  if s = "" then some 0 else parseIntChars s.data

/-- A parameter value as node-postgres binds it: null, text, integer, NaN
(a JavaScript `NaN` is serialised as the string "NaN", which no INTEGER column
accepts), or boolean. -/
inductive SqlVal
  | sNull
  | sText (s : String)
  | sInt (n : Int)
  | sNaN
  | sBool (b : Bool)
deriving Repr, DecidableEq

/-- A raw body field passed through unchanged: `undefined` binds as SQL null. -/
def textOrNull : Option String → SqlVal
  | none => .sNull
  | some s => .sText s

/-- The `x || null` pattern of the handlers: falsy (`undefined` or `""`) becomes null. -/
def jsOrNullText (x : Option String) : SqlVal :=
  if jsTruthy x then textOrNull x else .sNull

/-- The `Number(x)` pattern: a missing or non-integer field binds as NaN. -/
def numberVal : Option String → SqlVal
  | none => .sNaN
  | some s => match jsNumber s with
    | some n => .sInt n
    | none => .sNaN

/-- The `x ? Number(x) : null` pattern used for `floor`. -/
def floorVal (x : Option String) : SqlVal :=
  if jsTruthy x then numberVal x else .sNull

/-- The `x === "true"` coercion used for the amenity checkboxes in variants B and C. -/
def boolStrVal (x : Option String) : Bool :=
  x = some "true"

/-! ## Data model of variants B and C (identical CREATE TABLE statements) -/

/-- A row of the `listings` table of variants B and C.  `created_at` is the
insertion timestamp (`TIMESTAMP DEFAULT NOW()`), modelled as a natural number. -/
structure Listing where
  id : Int
  title : String
  city : String
  district : Option String
  street : Option String
  price : Int
  rooms : Int
  area : Int
  type : String
  floor : Option Int
  balcony : Bool
  terrace : Bool
  garden : Bool
  description : Option String
  created_at : Nat
deriving Repr, DecidableEq

/-- A row of the `images` table: serial id, owning listing id, mime type, bytes. -/
structure Image where
  id : Int
  listing_id : Int
  mime : String
  data : List Nat
deriving Repr, DecidableEq

/-- An uploaded file as multer's memory storage hands it to the handler. -/
structure FileUpload where
  mimetype : String
  buffer : List Nat
deriving Repr, DecidableEq

/-- The Postgres state of variants B and C: both tables plus the two SERIAL counters. -/
structure Db where
  listings : List Listing
  images : List Image
  nextListingId : Int
  nextImageId : Int
deriving Repr, DecidableEq

/-- A freshly initialised database (both SERIAL sequences start at 1). -/
def emptyDb : Db := ⟨[], [], 1, 1⟩

/-- The multipart body both Postgres variants destructure; every field is an
optional string.  `remove_images` is the JSON-parsed id array: the handlers
`JSON.parse` a form string and treat a parse failure or a non-array exactly as
an absent field, so the model carries the parsed result (`none` for absent,
unparseable or non-array input). -/
structure ReqBody where
  title : Option String := none
  city : Option String := none
  district : Option String := none
  street : Option String := none
  price : Option String := none
  rooms : Option String := none
  area : Option String := none
  type : Option String := none
  floor : Option String := none
  balcony : Option String := none
  terrace : Option String := none
  garden : Option String := none
  description : Option String := none
  remove_images : Option (List Int) := none
deriving Repr, DecidableEq

/-- The thirteen bound parameters of the INSERT/UPDATE statements of variants B and C. -/
structure ListingParams where
  title : SqlVal
  city : SqlVal
  district : SqlVal
  street : SqlVal
  price : SqlVal
  rooms : SqlVal
  area : SqlVal
  type : SqlVal
  floor : SqlVal
  balcony : SqlVal
  terrace : SqlVal
  garden : SqlVal
  description : SqlVal
deriving Repr, DecidableEq

/-- The parameter list both variants build:
`[title, city, district || null, street || null, Number(price), Number(rooms),
Number(area), type, floor ? Number(floor) : null, balcony === "true",
terrace === "true", garden === "true", description || null]`. -/
def listingParams (b : ReqBody) : ListingParams :=
  { title := textOrNull b.title
    city := textOrNull b.city
    district := jsOrNullText b.district
    street := jsOrNullText b.street
    price := numberVal b.price
    rooms := numberVal b.rooms
    area := numberVal b.area
    type := textOrNull b.type
    floor := floorVal b.floor
    balcony := .sBool (boolStrVal b.balcony)
    terrace := .sBool (boolStrVal b.terrace)
    garden := .sBool (boolStrVal b.garden)
    description := jsOrNullText b.description }

/-- A value is acceptable for an INTEGER-typed parameter slot: NaN is rejected
at bind time, before the statement runs. -/
def intBindOk : SqlVal → Bool
  | .sNaN => false
  | _ => true

/-- All INTEGER-typed parameters of the statement bind (price, rooms, area, floor). -/
def bindOk (p : ListingParams) : Bool :=
  intBindOk p.price && intBindOk p.rooms && intBindOk p.area && intBindOk p.floor

/-- A TEXT NOT NULL column accepts the value. -/
def isTextVal : SqlVal → Bool
  | .sText _ => true
  | _ => false

/-- An INTEGER NOT NULL column accepts the value. -/
def isIntVal : SqlVal → Bool
  | .sInt _ => true
  | _ => false

/-- The NOT NULL constraints of the `listings` table hold for a written row:
title, city, price, rooms, area and type must all be present. -/
def rowOk (p : ListingParams) : Bool :=
  isTextVal p.title && isTextVal p.city && isIntVal p.price &&
  isIntVal p.rooms && isIntVal p.area && isTextVal p.type

/-- The text of a TEXT NOT NULL column (meaningful when `isTextVal` holds). -/
def textValD : SqlVal → String
  | .sText s => s
  | _ => ""

/-- The value of an INTEGER NOT NULL column (meaningful when `isIntVal` holds). -/
def intValD : SqlVal → Int
  | .sInt n => n
  | _ => 0

/-- The value of a nullable TEXT column. -/
def asTextOpt : SqlVal → Option String
  | .sText s => some s
  | _ => none

/-- The value of a nullable INTEGER column. -/
def asIntOpt : SqlVal → Option Int
  | .sInt n => some n
  | _ => none

/-- The value of a BOOLEAN column. -/
def asBool : SqlVal → Bool
  | .sBool b => b
  | _ => false

/-- The row a parameter list writes, for a given id and creation timestamp.
`id` and `created_at` are never in the column list of the INSERT/UPDATE, so
they are arguments, not parameters. -/
def buildListing (p : ListingParams) (id : Int) (created : Nat) : Listing :=
  { id := id
    title := textValD p.title
    city := textValD p.city
    district := asTextOpt p.district
    street := asTextOpt p.street
    price := intValD p.price
    rooms := intValD p.rooms
    area := intValD p.area
    type := textValD p.type
    floor := asIntOpt p.floor
    balcony := asBool p.balcony
    terrace := asBool p.terrace
    garden := asBool p.garden
    description := asTextOpt p.description
    created_at := created }

/-- INSERT INTO listings ... RETURNING * (variants B and C, identical SQL):
fails when an INTEGER parameter is NaN or a NOT NULL column receives null,
otherwise appends the new row and advances the sequence. -/
def insertListing (p : ListingParams) (now : Nat) (db : Db) : Except Unit (Listing × Db) :=
  if bindOk p && rowOk p then
    let l := buildListing p db.nextListingId now
    .ok (l, { db with
      listings := db.listings ++ [l]
      nextListingId := db.nextListingId + 1 })
  else .error ()

/-- UPDATE listings SET title=$1, ..., description=$13 WHERE id=$14
(variants B and C, identical SQL): a NaN INTEGER bind fails before any row is
looked at; a NOT NULL violation fires only when a row matches the WHERE clause;
matching zero rows is a silent success.  `id` and `created_at` are not in the
SET list. -/
def updateListing (p : ListingParams) (lid : Int) (db : Db) : Except Unit Db :=
  if !bindOk p then .error ()
  else if db.listings.any (fun l => decide (l.id = lid)) && !rowOk p then .error ()
  else .ok { db with listings := db.listings.map (fun l =>
    if l.id = lid then buildListing p l.id l.created_at else l) }

/-- DELETE FROM images WHERE listing_id=$1 AND id = ANY($2::int[]) — run by the
PUT handlers only when `remove_images` parsed to a nonempty array. -/
def removeImages (lid : Int) (arr : Option (List Int)) (db : Db) : Db :=
  match arr with
  | none => db
  | some ids =>
    if ids.isEmpty then db
    else { db with images := db.images.filter (fun i => !(decide (i.listing_id = lid ∧ i.id ∈ ids))) }

/-- INSERT INTO images (listing_id, mime, data) VALUES ($1,$2,$3): the foreign
key `listing_id REFERENCES listings(id)` makes the insert fail when no such
listing exists. -/
def insertImage (lid : Int) (f : FileUpload) (db : Db) : Except Unit Db :=
  if db.listings.any (fun l => decide (l.id = lid)) then
    .ok { db with
      images := db.images ++ [⟨db.nextImageId, lid, f.mimetype, f.buffer⟩]
      nextImageId := db.nextImageId + 1 }
  else .error ()

/-- The `for (const f of req.files) await pool.query(INSERT INTO images ...)`
loop: each insert commits on its own, so a failure keeps the inserts made so
far (`false` marks the thrown exception). -/
def insertImages (lid : Int) (files : List FileUpload) (db : Db) : Bool × Db :=
  match files with
  | [] => (true, db)
  | f :: fs =>
    match insertImage lid f db with
    | .ok db' => insertImages lid fs db'
    | .error _ => (false, db)

/-- The image ids aggregated per listing by the LEFT JOIN of the GET queries. -/
def imageIdsOf (db : Db) (lid : Int) : List Int :=
  (db.images.filter (fun i => decide (i.listing_id = lid))).map (fun i => i.id)

/-- The single joined row of `SELECT l.*, json_agg(i.id) ... WHERE l.id=$1`. -/
def getOneRow (db : Db) (lid : Int) : Option (Listing × List Int) :=
  (db.listings.find? (fun l => decide (l.id = lid))).map (fun l => (l, imageIdsOf db l.id))

/-! ## Data model of variant A (flat JSON file) -/

/-- A listing object as variant A writes it to `listings.json` (no balcony flag
in this variant; images are served-from-disk URL paths). -/
structure ListingA where
  id : String
  title : String
  city : String
  type : String
  area : Int
  rooms : Int
  price : Int
  floor : Option Int
  terrace : Bool
  garden : Bool
  description : String
  images : List String
  createdAt : Nat
deriving Repr, DecidableEq

/-- The variant A store: the listings.json document plus the uploads directory
(the file paths multer's diskStorage has written). -/
structure StateA where
  listings : List ListingA
  uploads : List String
deriving Repr, DecidableEq

/-- A normalised review object produced by `normalizeWebhookItem`. -/
structure Review where
  author_name : String
  rating : Int
  text : String
  time : Int
  profile_pic : Option String
  permalink : Option String
deriving Repr, DecidableEq

/-! ## Data model of variant D (src/unnamed/part_000) -/

/-- A row of variant D's `listings` table, columns in CREATE TABLE order
(part_000 lines 46-66).  Only `id` and `title` are NOT NULL; the NUMERIC
columns are carried as optional integers (a NaN NUMERIC, which Postgres
accepts and no modelled route reads, is collapsed to null). -/
structure ListingD where
  id : Int
  created_at : Nat
  title : String
  description : Option String
  city : Option String
  district : Option String
  street : Option String
  type : Option String
  price : Option Int
  rooms : Option Int
  area : Option Int
  floor : Option Int
  balcony : Bool
  terrace : Bool
  garden : Bool
  image_id : Option Int
  image_url : Option String
deriving Repr, DecidableEq

/-- A row of variant D's `images` table (part_000 lines 37-45): only the byte
payload is NOT NULL. -/
structure ImageD where
  id : Int
  filename : Option String
  mimetype : Option String
  data : List Nat
  created_at : Nat
deriving Repr, DecidableEq

/-- Variant D's Postgres state: both tables plus the two SERIAL sequences. -/
structure DbD where
  listings : List ListingD
  images : List ImageD
  nextListingId : Int
  nextImageId : Int
deriving Repr, DecidableEq

/-- An uploaded file as multer's memoryStorage hands it to variant D's handler. -/
structure FileD where
  originalname : String
  mimetype : String
  buffer : List Nat
deriving Repr, DecidableEq

/-- The body fields variant D's create handler reads (`adminPass` is also read
by the requireAdmin gate). -/
structure ReqBodyD where
  title : Option String := none
  description : Option String := none
  city : Option String := none
  district : Option String := none
  street : Option String := none
  type : Option String := none
  price : Option String := none
  rooms : Option String := none
  area : Option String := none
  floor : Option String := none
  balcony : Option String := none
  terrace : Option String := none
  garden : Option String := none
  imageUrl : Option String := none
  adminPass : Option String := none
deriving Repr, DecidableEq

/-- The front-end listing object produced by mapRowToListing (part_000 87-107). -/
structure ListingDView where
  id : Int
  createdAt : Nat
  title : String
  description : String
  city : String
  district : String
  street : String
  type : String
  price : Int
  rooms : Int
  area : Int
  floor : Int
  balcony : Bool
  terrace : Bool
  garden : Bool
  image : String
deriving Repr, DecidableEq

/-! ## Responses -/

/-- The JSON (or raw) payloads the modelled routes send. -/
inductive ApiBody
  | jsonErr (msg : String)
  | jsonOkTrue
  | jsonOkFalse (msg : String)
  | jsonSuccessTrue
  | jsonSuccessListing (l : Listing)
  | jsonRecord (r : Option (Listing × List Int))
  | jsonRecords (rs : List (Listing × List Int))
  | jsonListingA (l : ListingA)
  | jsonListA (ls : List ListingA)
  | jsonListingDView (v : ListingDView)
  | jsonListingDViews (vs : List ListingDView)
  | jsonReviews (rs : List Review)
  | textNotFound
  | imageBytes (mime : String) (data : List Nat)
deriving Repr, DecidableEq

/-- An HTTP response: status code and body. -/
structure HttpResp where
  status : Nat
  body : ApiBody
deriving Repr, DecidableEq

/-! ## Variant B route handlers (src/server.js lines 217-480) -/

/-- POST /api/listings (variant B, lines 340-379).  The route has NO auth
middleware — the file's header comment says the panel is hidden by its URL
alone — so the handler takes no credential and runs for every request.  Insert,
then the image loop; any database error is caught and answered with 400. -/
def postListingsB (b : ReqBody) (files : List FileUpload) (now : Nat) (db : Db) :
    HttpResp × Db :=
  match insertListing (listingParams b) now db with
  | .error _ => (⟨400, .jsonErr "Błąd podczas dodawania ogłoszenia"⟩, db)
  | .ok (l, db1) =>
    match insertImages l.id files db1 with
    | (true, db2) => (⟨201, .jsonSuccessListing l⟩, db2)
    | (false, db2) => (⟨400, .jsonErr "Błąd podczas dodawania ogłoszenia"⟩, db2)

/-- PUT /api/listings/:id (variant B, lines 382-434).  No auth middleware.
UPDATE, then the remove_images DELETE, then the new-image loop; the statements
are not wrapped in a transaction, so a later failure keeps the earlier writes. -/
def putListingsB (lid : Int) (b : ReqBody) (files : List FileUpload) (db : Db) :
    HttpResp × Db :=
  match updateListing (listingParams b) lid db with
  | .error _ => (⟨400, .jsonErr "Błąd aktualizacji"⟩, db)
  | .ok db1 =>
    let db2 := removeImages lid b.remove_images db1
    match insertImages lid files db2 with
    | (true, db3) => (⟨200, .jsonSuccessTrue⟩, db3)
    | (false, db3) => (⟨400, .jsonErr "Błąd aktualizacji"⟩, db3)

/-- DELETE FROM listings WHERE id=$1 with the ON DELETE CASCADE of the images
table (variants B and C run exactly this statement). -/
def cascadeDelete (lid : Int) (db : Db) : Db :=
  { db with
    listings := db.listings.filter (fun l => !(decide (l.id = lid)))
    images := db.images.filter (fun i => !(decide (i.listing_id = lid))) }

/-- DELETE /api/listings/:id (variant B, lines 437-441): no auth middleware, no
existence check — the DELETE runs unconditionally and the response is always a
success marker. -/
def deleteListingsB (lid : Int) (db : Db) : HttpResp × Db :=
  (⟨200, .jsonSuccessTrue⟩, cascadeDelete lid db)

/-- GET /api/images/:id (variant B lines 300-306 and variant C lines 576-582,
identical): 404 with a plain-text body when no row matches. -/
def getImageBC (iid : Int) (db : Db) : HttpResp :=
  match db.images.find? (fun i => decide (i.id = iid)) with
  | none => ⟨404, .textNotFound⟩
  | some i => ⟨200, .imageBytes i.mime i.data⟩

/-! ## Variant C route handlers (src/server.js lines 481-728) -/

/-- requireAdmin (variant C, lines 550-553): authorised exactly when the
`admin_auth` cookie carries the literal "true". -/
def requireAdminC (admin_auth : Option String) : Bool :=
  decide (admin_auth = some "true")

/-- POST /api/login (variant C, lines 556-568): a correct password sets the
`admin_auth` cookie to "true"; a wrong one gets a fixed 401 body and no cookie. -/
def loginC (adminPassword : String) (password : Option String) :
    HttpResp × Option String :=
  if password = some adminPassword then (⟨200, .jsonOkTrue⟩, some "true")
  else (⟨401, .jsonOkFalse "Błędne hasło"⟩, none)

/-- POST /api/listings (variant C, lines 613-653): requireAdmin, then the same
INSERT as variant B, then the image loop, then a re-fetch of the joined record. -/
def postListingsC (admin_auth : Option String) (b : ReqBody) (files : List FileUpload)
    (now : Nat) (db : Db) : HttpResp × Db :=
  if requireAdminC admin_auth then
    match insertListing (listingParams b) now db with
    | .error _ => (⟨400, .jsonErr "Błąd zapisu ogłoszenia"⟩, db)
    | .ok (l, db1) =>
      match insertImages l.id files db1 with
      | (true, db2) => (⟨201, .jsonRecord (getOneRow db2 l.id)⟩, db2)
      | (false, db2) => (⟨400, .jsonErr "Błąd zapisu ogłoszenia"⟩, db2)
  else (⟨403, .jsonErr "Brak dostępu"⟩, db)

/-- PUT /api/listings/:id (variant C, lines 656-708): requireAdmin, then the
same UPDATE / remove_images / new-image statements as variant B, then a
re-fetch of the joined record. -/
def putListingsC (admin_auth : Option String) (lid : Int) (b : ReqBody)
    (files : List FileUpload) (db : Db) : HttpResp × Db :=
  if requireAdminC admin_auth then
    match updateListing (listingParams b) lid db with
    | .error _ => (⟨400, .jsonErr "Błąd aktualizacji ogłoszenia"⟩, db)
    | .ok db1 =>
      let db2 := removeImages lid b.remove_images db1
      match insertImages lid files db2 with
      | (true, db3) => (⟨200, .jsonRecord (getOneRow db3 lid)⟩, db3)
      | (false, db3) => (⟨400, .jsonErr "Błąd aktualizacji ogłoszenia"⟩, db3)
  else (⟨403, .jsonErr "Brak dostępu"⟩, db)

/-- DELETE /api/listings/:id (variant C, lines 710-714): requireAdmin, then an
unconditional DELETE and always an ok marker — no existence check. -/
def deleteListingsC (admin_auth : Option String) (lid : Int) (db : Db) :
    HttpResp × Db :=
  if requireAdminC admin_auth then (⟨200, .jsonOkTrue⟩, cascadeDelete lid db)
  else (⟨403, .jsonErr "Brak dostępu"⟩, db)

/-- GET /api/listings/:id (variant C, lines 597-610). -/
def getListingC (lid : Int) (db : Db) : HttpResp :=
  match getOneRow db lid with
  | none => ⟨404, .jsonErr "Not found"⟩
  | some r => ⟨200, .jsonRecord (some r)⟩

/-- Insert an element in front of everything whose key is not larger: the
ordering step of an `ORDER BY key DESC`. -/
def insertByKey {α : Type} (key : α → Nat) (x : α) : List α → List α
  | [] => [x]
  | y :: ys =>
    if key y ≤ key x then x :: y :: ys
    else y :: insertByKey key x ys

/-- `ORDER BY key DESC` as an insertion sort (ties are broken arbitrarily by
the database; any descending arrangement is a faithful model). -/
def sortByKeyDesc {α : Type} (key : α → Nat) : List α → List α
  | [] => []
  | y :: ys => insertByKey key y (sortByKeyDesc key ys)

/-- The rows of `SELECT l.*, json_agg(i.id) ... GROUP BY l.id ORDER BY
l.created_at DESC` (variant B lines 311-320 and variant C lines 585-595). -/
def listRows (db : Db) : List (Listing × List Int) :=
  (sortByKeyDesc (fun l => l.created_at) db.listings).map (fun l => (l, imageIdsOf db l.id))

/-- GET /api/listings (variants B and C). -/
def listListingsB (db : Db) : HttpResp :=
  ⟨200, .jsonRecords (listRows db)⟩

/-- A mutating request against the variant B API (the unauthenticated surface). -/
inductive OpB
  | create (b : ReqBody) (files : List FileUpload) (now : Nat)
  | update (lid : Int) (b : ReqBody) (files : List FileUpload)
  | remove (lid : Int)
deriving Repr

/-- The store state a variant B mutation leaves behind. -/
def applyOpB (db : Db) : OpB → Db
  | .create b files now => (postListingsB b files now db).2
  | .update lid b files => (putListingsB lid b files db).2
  | .remove lid => (deleteListingsB lid db).2

/-! ## Variant A route handlers (src/server.js lines 1-216) -/

/-- The `Number(x) || 0` coercion of variant A: missing or non-numeric input
silently becomes 0. -/
def jsNumberOr0 (x : Option String) : Int :=
  match x with
  | none => 0
  | some s => (jsNumber s).getD 0

/-- The checkbox coercion of variant A (`x === 'on' || x === 'true' ||
x === '1'`) — also exactly what variant D's
`['true', 'on', true, '1', 1].includes(x)` computes on a string-or-absent
form field, since the non-string list members cannot match. -/
def checkboxOn (x : Option String) : Bool :=
  x = some "on" || x = some "true" || x = some "1"

/-- The `fields.floor ? Number(fields.floor) : null` coercion of variant A
(a NaN result is serialised to JSON as null, hence `none`). -/
def floorA (x : Option String) : Option Int :=
  match x with
  | none => none
  | some s => if s = "" then none else jsNumber s

/-- POST /api/login (variant A, lines 67-74): a correct password marks the
session authenticated; a wrong one gets a fixed 401 body and leaves the
session flag as it was. -/
def loginA (adminPassword : String) (password : Option String) (sessionAuth : Bool) :
    HttpResp × Bool :=
  if password = some adminPassword then (⟨200, .jsonOkTrue⟩, true)
  else (⟨401, .jsonErr "Nieprawidłowe hasło"⟩, sessionAuth)

/-- POST /api/listings (variant A, lines 91-126).  The route runs
`upload.array('images[]')` BEFORE the handler, and multer's diskStorage
(lines 43-51) writes every uploaded file into the uploads directory as the
request is parsed — so those files are stored even when the session check then
rejects the request.  An authenticated request additionally builds the listing
with `|| ''` / `Number(..) || 0` defaults — NO field validation — and unshifts
it onto the stored list.  `files` are the stored `/uploads/...` paths (the
same strings the listing records), `newId` the uuid. -/
def postListingsA (sessionAuth : Bool) (b : ReqBody) (files : List String)
    (newId : String) (now : Nat) (st : StateA) : HttpResp × StateA :=
  let st1 : StateA := { st with uploads := st.uploads ++ files }
  if !sessionAuth then (⟨403, .jsonErr "Brak autoryzacji"⟩, st1)
  else
    let l : ListingA :=
      { id := newId
        title := b.title.getD ""
        city := b.city.getD ""
        type := b.type.getD ""
        area := jsNumberOr0 b.area
        rooms := jsNumberOr0 b.rooms
        price := jsNumberOr0 b.price
        floor := floorA b.floor
        terrace := checkboxOn b.terrace
        garden := checkboxOn b.garden
        description := b.description.getD ""
        images := files
        createdAt := now }
    (⟨200, .jsonListingA l⟩, { st1 with listings := l :: st1.listings })

/-- DELETE /api/listings/:id (variant A, lines 129-149): session-gated (no
multer on this route); 404 when no stored listing has the id, else the entry
at the found index is spliced out and each of its image files unlinked from
the uploads directory. -/
def deleteListingsA (sessionAuth : Bool) (id : String) (st : StateA) :
    HttpResp × StateA :=
  if !sessionAuth then (⟨403, .jsonErr "Brak autoryzacji"⟩, st)
  else
    match st.listings.find? (fun l => decide (l.id = id)) with
    | none => (⟨404, .jsonErr "Nie znaleziono oferty"⟩, st)
    | some removed =>
      (⟨200, .jsonOkTrue⟩,
        { listings := st.listings.eraseP (fun l => decide (l.id = id))
          uploads := st.uploads.filter (fun f => !(decide (f ∈ removed.images))) })

/-- GET /api/listings (variant A, lines 85-88): the stored list exactly as the
file holds it — newest first only because the create unshifts. -/
def listListingsA (st : StateA) : HttpResp :=
  ⟨200, .jsonListA st.listings⟩

/-! ## Variant D (src/unnamed/part_000) -/

/-- requireAdmin (variant D, lines 74-78): the credential is
`req.headers['x-admin-pass'] || req.body?.adminPass || req.query?.adminPass`
(JavaScript `||`, so an empty string falls through), compared with `!==`
against the configured admin password. -/
def requireAdminD (adminPass : String) (headerPass bodyPass queryPass : Option String) : Bool :=
  decide (jsOrStr headerPass (jsOrStr bodyPass queryPass) = some adminPass)

/-- mapRowToListing (variant D, part_000 lines 87-107).  In the model
`new Date(row.created_at).getTime()` is the identity on the epoch timestamps,
and `row.x !== null ? Number(row.x) : 0` on the collapsed numerics is `getD 0`. -/
def mapRowToListing (row : ListingD) : ListingDView :=
  { id := row.id
    createdAt := row.created_at
    title := row.title
    description := row.description.getD ""
    city := row.city.getD ""
    district := row.district.getD ""
    street := row.street.getD ""
    type := (jsOrStr row.type (some "Mieszkanie")).getD ""
    price := row.price.getD 0
    rooms := row.rooms.getD 0
    area := row.area.getD 0
    floor := row.floor.getD 0
    balcony := row.balcony
    terrace := row.terrace
    garden := row.garden
    image :=
      match row.image_id with
      | some i => if i = 0 then row.image_url.getD "" else "/api/images/" ++ toString i
      | none => row.image_url.getD "" }

/-- The row sequence of variant D's list query, `SELECT * FROM listings ...
ORDER BY created_at DESC` followed by `rows.map(mapRowToListing)` (part_000
lines 110-130).  The optional `q` ILIKE filter only narrows the row set and
leaves the ORDER BY untouched; the unfiltered request is modelled. -/
def listRowsD (db : DbD) : List ListingDView :=
  (sortByKeyDesc (fun l => l.created_at) db.listings).map mapRowToListing

/-- GET /api/listings (variant D, part_000 lines 110-130). -/
def listListingsD (db : DbD) : HttpResp :=
  ⟨200, .jsonListingDViews (listRowsD db)⟩

/-- POST /api/listings (variant D, part_000 lines 132-184): requireAdmin runs
first (and multer's memoryStorage writes nothing to the store while parsing),
then — when a file with a nonempty buffer arrived — an INSERT into images,
then the INSERT into listings with `|| ''` text defaults and
`x ? Number(x) : null` numerics.  A truthy non-integer rooms or floor is a NaN
INTEGER bind, so that INSERT fails (500) — and the already-inserted image row
stays, there being no transaction.  The NUMERIC columns price and area accept
the NaN bind; no modelled route reads them, so NaN is collapsed to null. -/
def postListingsD (adminPass : String) (headerPass queryPass : Option String)
    (b : ReqBodyD) (file : Option FileD) (now : Nat) (db : DbD) : HttpResp × DbD :=
  if requireAdminD adminPass headerPass b.adminPass queryPass then
    let imgStep : Option Int × DbD :=
      match file with
      | some f =>
        if f.buffer.isEmpty then (none, db)
        else (some db.nextImageId,
          { db with
            images := db.images ++
              [⟨db.nextImageId, some f.originalname, some f.mimetype, f.buffer, now⟩]
            nextImageId := db.nextImageId + 1 })
      | none => (none, db)
    let imageId := imgStep.1
    let db1 := imgStep.2
    if intBindOk (floorVal b.rooms) && intBindOk (floorVal b.floor) then
      let row : ListingD :=
        { id := db1.nextListingId
          created_at := now
          title := b.title.getD ""
          description := some (b.description.getD "")
          city := some (b.city.getD "")
          district := some (b.district.getD "")
          street := some (b.street.getD "")
          type := some ((jsOrStr b.type (some "Mieszkanie")).getD "")
          price := asIntOpt (floorVal b.price)
          rooms := asIntOpt (floorVal b.rooms)
          area := asIntOpt (floorVal b.area)
          floor := asIntOpt (floorVal b.floor)
          balcony := checkboxOn b.balcony
          terrace := checkboxOn b.terrace
          garden := checkboxOn b.garden
          image_id := imageId
          image_url := if jsTruthy b.imageUrl then b.imageUrl else none }
      (⟨201, .jsonListingDView (mapRowToListing row)⟩,
        { db1 with
          listings := db1.listings ++ [row]
          nextListingId := db1.nextListingId + 1 })
    else (⟨500, .jsonErr "Server error"⟩, db1)
  else (⟨401, .jsonErr "Unauthorized"⟩, db)

/-- DELETE /api/listings/:id (variant D, lines 186-201): admin-gated; SELECTs
the row's image_id, 404 when no row exists, else deletes the listing and — when
image_id is truthy — its image row. -/
def deleteListingsD (adminPass : String) (headerPass bodyPass queryPass : Option String)
    (lid : Int) (db : DbD) : HttpResp × DbD :=
  if requireAdminD adminPass headerPass bodyPass queryPass then
    match db.listings.find? (fun l => decide (l.id = lid)) with
    | none => (⟨404, .jsonErr "Not found"⟩, db)
    | some row =>
      let db1 : DbD := { db with listings := db.listings.filter (fun l => !(decide (l.id = lid))) }
      match row.image_id with
      | some imgId =>
        if imgId = 0 then (⟨200, .jsonOkTrue⟩, db1)
        else (⟨200, .jsonOkTrue⟩,
          { db1 with images := db1.images.filter (fun i => !(decide (i.id = imgId))) })
      | none => (⟨200, .jsonOkTrue⟩, db1)
  else (⟨401, .jsonErr "Unauthorized"⟩, db)

/-- GET /api/images/:id (variant D, lines 204-215): 404 when absent, else the
bytes with `mimetype || 'application/octet-stream'`. -/
def getImageD (iid : Int) (db : DbD) : HttpResp :=
  match db.images.find? (fun i => decide (i.id = iid)) with
  | none => ⟨404, .textNotFound⟩
  | some i =>
    ⟨200, .imageBytes ((jsOrStr i.mimetype (some "application/octet-stream")).getD "") i.data⟩

/-! ## Facebook-reviews proxy (variant A, src/server.js lines 151-192) -/

/-- JavaScript truthiness of an optional number: `undefined` and `0` are falsy. -/
def jsTruthyNum : Option Int → Bool
  | none => false
  | some n => !(n = 0)

/-- JavaScript `a || b` over optional numbers. -/
def jsOrNum (a b : Option Int) : Option Int :=
  if jsTruthyNum a then a else b

/-- A raw webhook item with the fields `normalizeWebhookItem` probes.  The
`time`-like fields are modelled as epoch numbers; string-date parsing
(`Date.parse`) is engine-dependent and out of this model, so a non-epoch value
takes the handler's current-time fallback branch.  `reviewer` carries the
reviewer name and `reviewer_picture` its `.picture` field. -/
structure RawReview where
  author_name : Option String := none
  name : Option String := none
  reviewer : Option String := none
  user : Option String := none
  rating : Option Int := none
  stars : Option Int := none
  recommendation_type : Option String := none
  text : Option String := none
  review_text : Option String := none
  recommendation_text : Option String := none
  comment : Option String := none
  time : Option Int := none
  created_time : Option Int := none
  date : Option Int := none
  profile_pic : Option String := none
  photo : Option String := none
  reviewer_picture : Option String := none
  permalink : Option String := none
  url : Option String := none
deriving Repr, DecidableEq

/-- normalizeWebhookItem (lines 182-192): permissive field fallbacks producing
a `Review`.  `nowSec` is `Math.floor(Date.now()/1000)`. -/
def normalizeWebhookItem (nowSec : Int) (src : RawReview) : Review :=
  let recFallback : Int :=
    if src.recommendation_type = some "positive" then 5
    else if src.recommendation_type = some "negative" then 1 else 5
  let ratingRaw := jsOrNum src.rating (jsOrNum src.stars (some recFallback))
  let timeRaw := (jsOrNum src.time (jsOrNum src.created_time src.date)).getD 0
  { author_name := (jsOrStr src.author_name (jsOrStr src.name (jsOrStr src.reviewer src.user))).getD ""
    rating := ratingRaw.getD 0
    text := (jsOrStr src.text (jsOrStr src.review_text (jsOrStr src.recommendation_text src.comment))).getD ""
    time := if timeRaw > 1000000000 then timeRaw else nowSec
    profile_pic :=
      let v := jsOrStr src.profile_pic (jsOrStr src.photo src.reviewer_picture)
      if jsTruthy v then v else none
    permalink :=
      let v := jsOrStr src.permalink src.url
      if jsTruthy v then v else none }

/-- The module-level one-slot cache `FB_CACHE = \x7b data: null, ts: 0 \x7d`. -/
structure FbCache where
  data : Option (List Review)
  ts : Nat
deriving Repr, DecidableEq

/-- The initial cache value. -/
def fbCacheInit : FbCache := ⟨none, 0⟩

/-- FB_CACHE_TTL = 60 * 60 * 1000 (one hour of milliseconds). -/
def FB_CACHE_TTL : Nat := 60 * 60 * 1000

/-- What the upstream `fetch(FB_WEBHOOK_URL)` did: threw, answered a non-ok
status, or answered ok with a body that JSON-parses to an array of items
(`none` models both a parse failure and a non-array value — the handler treats
them alike). -/
inductive FetchOutcome
  | fetchFailed
  | respNotOk (status : Nat)
  | respOk (json : Option (List RawReview))
deriving Repr, DecidableEq

/-- The cache-miss path of the handler: a thrown fetch or a non-ok status
answers `[]` and leaves the cache alone; an ok response normalises the items
(an unparseable or non-array body gives `[]`) and overwrites the cache slot. -/
def fbFetchBranch (cache : FbCache) (now : Nat) (nowSec : Int) (upstream : FetchOutcome) :
    HttpResp × FbCache :=
  match upstream with
  | .fetchFailed => (⟨200, .jsonReviews []⟩, cache)
  | .respNotOk _ => (⟨200, .jsonReviews []⟩, cache)
  | .respOk json =>
    let items := match json with
      | some arr => arr.map (normalizeWebhookItem nowSec)
      | none => []
    (⟨200, .jsonReviews items⟩, ⟨some items, now⟩)

/-- GET /api/facebook-reviews (lines 155-180): serve the cached data while
`FB_CACHE.data` is truthy and younger than the TTL, otherwise take the fetch
branch.  `now` is `Date.now()` (milliseconds), `nowSec` its seconds floor. -/
def facebookReviews (cache : FbCache) (now : Nat) (nowSec : Int) (upstream : FetchOutcome) :
    HttpResp × FbCache :=
  match cache.data with
  | some d =>
    if now - cache.ts < FB_CACHE_TTL then (⟨200, .jsonReviews d⟩, cache)
    else fbFetchBranch cache now nowSec upstream
  | none => fbFetchBranch cache now nowSec upstream

/-! ## Concrete stores and requests used by the closed evaluations below -/

/-- A create body with every required field present. -/
def fullBody : ReqBody :=
  { title := some "Loft"
    city := some "Gdańsk"
    price := some "500000"
    rooms := some "3"
    area := some "50"
    type := some "Mieszkanie" }

/-- A store holding one listing with title "A", city "X", price 100 (created at 10). -/
def dbAX100 : Db :=
  ⟨[⟨1, "A", "X", none, none, 100, 3, 50, "Mieszkanie", none, false, false, false, none, 10⟩], [], 2, 1⟩

/-- An image with id 5 owned by listing 2. -/
def img5 : Image := ⟨5, 2, "image/png", [1]⟩

/-- A store holding only `img5`. -/
def dbImg2 : Db := ⟨[], [img5], 1, 6⟩

/-- An image with id 7 owned by listing 3. -/
def img7 : Image := ⟨7, 3, "image/png", [9]⟩

/-- A store holding only `img7`. -/
def dbImg3 : Db := ⟨[], [img7], 1, 8⟩

/-! ## Helper lemmas about the Postgres statements of variants B and C -/

/-- A successful UPDATE leaves the images table untouched. -/
theorem updateListing_images {p : ListingParams} {lid : Int} {db db1 : Db}
    (h : updateListing p lid db = .ok db1) : db1.images = db.images := by
  unfold updateListing at h
  split at h
  · exact absurd h (by simp)
  · split at h
    · exact absurd h (by simp)
    · cases h
      rfl

/-- A successful UPDATE keeps every row's id and creation timestamp: the SET
list of the statement names neither column. -/
theorem updateListing_key {p : ListingParams} {lid : Int} {db db1 : Db}
    (h : updateListing p lid db = .ok db1) :
    db1.listings.map (fun l => (l.id, l.created_at)) =
      db.listings.map (fun l => (l.id, l.created_at)) := by
  unfold updateListing at h
  split at h
  · exact absurd h (by simp)
  · split at h
    · exact absurd h (by simp)
    · cases h
      show (db.listings.map _).map _ = _
      rw [List.map_map]
      apply List.map_congr_left
      intro a _
      by_cases ha : a.id = lid <;> simp [ha, buildListing, Function.comp]

/-- The remove_images DELETE leaves the listings table untouched. -/
theorem removeImages_listings (lid : Int) (arr : Option (List Int)) (db : Db) :
    (removeImages lid arr db).listings = db.listings := by
  cases arr with
  | none => rfl
  | some ids => by_cases h : ids.isEmpty <;> simp [removeImages, h]

/-- An image owned by a different listing survives the remove_images DELETE. -/
theorem mem_removeImages {img : Image} {lid : Int} {db : Db} (arr : Option (List Int))
    (h : img ∈ db.images) (hown : ¬ img.listing_id = lid) :
    img ∈ (removeImages lid arr db).images := by
  cases arr with
  | none => exact h
  | some ids =>
    by_cases he : ids.isEmpty <;>
      simp [removeImages, he, List.mem_filter, h, hown]

/-- The new-image loop leaves the listings table untouched. -/
theorem insertImages_listings (lid : Int) (files : List FileUpload) (db : Db) :
    (insertImages lid files db).2.listings = db.listings := by
  induction files generalizing db with
  | nil => rfl
  | cons f fs ih =>
    unfold insertImages
    cases h : insertImage lid f db with
    | error e => rfl
    | ok db' =>
      rw [ih]
      unfold insertImage at h
      split at h
      · cases h
        rfl
      · exact absurd h (by simp)

/-- The new-image loop never drops an existing image row. -/
theorem mem_insertImages {img : Image} {lid : Int} (files : List FileUpload) {db : Db}
    (h : img ∈ db.images) : img ∈ (insertImages lid files db).2.images := by
  induction files generalizing db with
  | nil => exact h
  | cons f fs ih =>
    unfold insertImages
    cases hins : insertImage lid f db with
    | error e => exact h
    | ok db' =>
      apply ih
      unfold insertImage at hins
      split at hins
      · cases hins
        exact List.mem_append_left _ h
      · exact absurd hins (by simp)

/-- The state a variant B PUT leaves behind, written without the response. -/
theorem putListingsB_snd (lid : Int) (b : ReqBody) (files : List FileUpload) (db : Db) :
    (putListingsB lid b files db).2 =
      match updateListing (listingParams b) lid db with
      | .error _ => db
      | .ok db1 => (insertImages lid files (removeImages lid b.remove_images db1)).2 := by
  unfold putListingsB
  cases updateListing (listingParams b) lid db with
  | error e => rfl
  | ok db1 =>
    rcases h : insertImages lid files (removeImages lid b.remove_images db1) with ⟨ok3, db3⟩
    cases ok3 <;> simp [h]

/-- The state a variant C PUT leaves behind when the cookie gate passes. -/
theorem putListingsC_snd (lid : Int) (b : ReqBody) (files : List FileUpload) (db : Db) :
    (putListingsC (some "true") lid b files db).2 =
      match updateListing (listingParams b) lid db with
      | .error _ => db
      | .ok db1 => (insertImages lid files (removeImages lid b.remove_images db1)).2 := by
  unfold putListingsC
  rw [if_pos (by simp [requireAdminC])]
  cases updateListing (listingParams b) lid db with
  | error e => rfl
  | ok db1 =>
    rcases h : insertImages lid files (removeImages lid b.remove_images db1) with ⟨ok3, db3⟩
    cases ok3 <;> simp [h]

/-! ## Helper lemmas about the newest-first ordering -/

/-- Every member of `insertByKey key x xs` is `x` or a member of `xs`. -/
theorem mem_insertByKey {α : Type} {key : α → Nat} {y x : α} {xs : List α}
    (h : y ∈ insertByKey key x xs) : y = x ∨ y ∈ xs := by
  induction xs with
  | nil =>
    simp [insertByKey] at h
    exact Or.inl h
  | cons z zs ih =>
    by_cases hc : key z ≤ key x
    · simp only [insertByKey, if_pos hc, List.mem_cons] at h
      rcases h with h | h | h
      · exact Or.inl h
      · exact Or.inr (by simp [h])
      · exact Or.inr (by simp [h])
    · simp only [insertByKey, if_neg hc, List.mem_cons] at h
      rcases h with h | h
      · exact Or.inr (by simp [h])
      · rcases ih h with h' | h'
        · exact Or.inl h'
        · exact Or.inr (by simp [h'])

/-- Inserting into a key-descending list keeps it key-descending. -/
theorem pairwise_insertByKey {α : Type} {key : α → Nat} {x : α} {xs : List α}
    (h : xs.Pairwise (fun a b => key b ≤ key a)) :
    (insertByKey key x xs).Pairwise (fun a b => key b ≤ key a) := by
  induction xs with
  | nil => simp [insertByKey]
  | cons z zs ih =>
    rcases List.pairwise_cons.mp h with ⟨hz, hzs⟩
    by_cases hc : key z ≤ key x
    · rw [insertByKey, if_pos hc]
      refine List.pairwise_cons.mpr ⟨?_, h⟩
      intro y hy
      rcases List.mem_cons.mp hy with rfl | hy'
      · exact hc
      · exact le_trans (hz y hy') hc
    · rw [insertByKey, if_neg hc]
      refine List.pairwise_cons.mpr ⟨?_, ih hzs⟩
      intro y hy
      rcases mem_insertByKey hy with rfl | hy'
      · exact le_of_not_le hc
      · exact hz y hy'

/-- The sort underlying `ORDER BY key DESC` is descending. -/
theorem pairwise_sortByKeyDesc {α : Type} (key : α → Nat) (xs : List α) :
    (sortByKeyDesc key xs).Pairwise (fun a b => key b ≤ key a) := by
  induction xs with
  | nil => simp [sortByKeyDesc]
  | cons z zs ih => exact pairwise_insertByKey ih

/-! ## Claims -/

/-- C1, counterexample: variant B's POST /api/listings checks no credential at
all, so a create request carrying none succeeds (201) and mutates the store —
the claim that every credential-less mutation is rejected and leaves state
unchanged is false on this code. -/
theorem c1_counterexample :
    (postListingsB fullBody [] 5 emptyDb).1.status = 201 ∧
    ¬ (postListingsB fullBody [] 5 emptyDb).2 = emptyDb := by decide

/-- C1, amended: variants C and D reject every credential-less create, update
or delete with an authorization error (403 or 401) and the stored state
exactly as before; variant A rejects with 403 and leaves the stored listings
unchanged, but multer's diskStorage has already written the request's uploaded
files into the uploads directory before the session check runs; variant B's
mutating routes have no gate at all. -/
theorem c1_auth_gates_outside_variant_b
    (b : ReqBody) (bD : ReqBodyD) (filesA : List String) (files : List FileUpload)
    (fileD : Option FileD) (newId sid : String) (now nowD : Nat) (st : StateA)
    (db : Db) (dbd dbd2 : DbD) (lid lid2 : Int)
    (admin_auth : Option String) (hc : ¬ admin_auth = some "true")
    (adminPass : String) (hp bp qp hpD qpD : Option String)
    (hd : ¬ jsOrStr hp (jsOrStr bp qp) = some adminPass)
    (hdD : ¬ jsOrStr hpD (jsOrStr bD.adminPass qpD) = some adminPass) :
    (postListingsA false b filesA newId now st).1 = ⟨403, .jsonErr "Brak autoryzacji"⟩ ∧
    (postListingsA false b filesA newId now st).2.listings = st.listings ∧
    (postListingsA false b filesA newId now st).2.uploads = st.uploads ++ filesA ∧
    deleteListingsA false sid st = (⟨403, .jsonErr "Brak autoryzacji"⟩, st) ∧
    postListingsC admin_auth b files now db = (⟨403, .jsonErr "Brak dostępu"⟩, db) ∧
    putListingsC admin_auth lid b files db = (⟨403, .jsonErr "Brak dostępu"⟩, db) ∧
    deleteListingsC admin_auth lid db = (⟨403, .jsonErr "Brak dostępu"⟩, db) ∧
    postListingsD adminPass hpD qpD bD fileD nowD dbd2 =
      (⟨401, .jsonErr "Unauthorized"⟩, dbd2) ∧
    deleteListingsD adminPass hp bp qp lid2 dbd = (⟨401, .jsonErr "Unauthorized"⟩, dbd) := by
  refine ⟨?_, ?_, ?_, ?_, ?_, ?_, ?_, ?_, ?_⟩ <;>
    simp [postListingsA, deleteListingsA, postListingsC, putListingsC, deleteListingsC,
      postListingsD, deleteListingsD, requireAdminC, requireAdminD, hc, hd, hdD]

/-- C1, witness: the gates of variants A, C and D at concrete credential-less
requests (the variant A create carrying one uploaded file, which lands in the
uploads store despite the 403). -/
theorem c1_witness :
    (postListingsA false {} ["f.jpg"] "u1" 0 ⟨[], []⟩).1 = ⟨403, .jsonErr "Brak autoryzacji"⟩ ∧
    (postListingsA false {} ["f.jpg"] "u1" 0 ⟨[], []⟩).2.listings = [] ∧
    (postListingsA false {} ["f.jpg"] "u1" 0 ⟨[], []⟩).2.uploads = [] ++ ["f.jpg"] ∧
    deleteListingsA false "u1" ⟨[], []⟩ = (⟨403, .jsonErr "Brak autoryzacji"⟩, ⟨[], []⟩) ∧
    postListingsC none {} [] 0 emptyDb = (⟨403, .jsonErr "Brak dostępu"⟩, emptyDb) ∧
    putListingsC none 1 {} [] emptyDb = (⟨403, .jsonErr "Brak dostępu"⟩, emptyDb) ∧
    deleteListingsC none 1 emptyDb = (⟨403, .jsonErr "Brak dostępu"⟩, emptyDb) ∧
    postListingsD "Klaudia0050" none none {} none 0 ⟨[], [], 1, 1⟩ =
      (⟨401, .jsonErr "Unauthorized"⟩, ⟨[], [], 1, 1⟩) ∧
    deleteListingsD "Klaudia0050" none none none 2 ⟨[], [], 1, 1⟩ =
      (⟨401, .jsonErr "Unauthorized"⟩, ⟨[], [], 1, 1⟩) :=
  c1_auth_gates_outside_variant_b {} {} ["f.jpg"] [] none "u1" "u1" 0 0 ⟨[], []⟩
    emptyDb ⟨[], [], 1, 1⟩ ⟨[], [], 1, 1⟩ 1 2 none (by decide) "Klaudia0050"
    none none none none none (by decide) (by decide)

/-- C2, counterexample: with listing 1 stored as title "A", city "X", price 100,
an authenticated update carrying only price 150 does not produce a record with
price 150 — the UPDATE overwrites all thirteen columns, the missing fields make
it fail (400), nothing changes, and get-one still returns price 100. -/
theorem c2_counterexample :
    (putListingsC (some "true") 1 { price := some "150" } [] dbAX100).1.status = 400 ∧
    (putListingsC (some "true") 1 { price := some "150" } [] dbAX100).2 = dbAX100 ∧
    (getOneRow (putListingsC (some "true") 1 { price := some "150" } [] dbAX100).2 1).map
      (fun r => (r.1.title, r.1.city, r.1.price)) = some ("A", "X", 100) := by decide

/-- C2, amended: the PUT handlers overwrite every column rather than merging,
so an update payload missing any of the required numeric fields (price, rooms,
area) fails with 400 and leaves the store exactly unchanged — absent fields are
never retained individually. -/
theorem c2_absent_field_fails_update
    (lid : Int) (b : ReqBody) (files : List FileUpload) (db : Db)
    (h : b.price = none ∨ b.rooms = none ∨ b.area = none) :
    putListingsB lid b files db = (⟨400, .jsonErr "Błąd aktualizacji"⟩, db) ∧
    putListingsC (some "true") lid b files db =
      (⟨400, .jsonErr "Błąd aktualizacji ogłoszenia"⟩, db) := by
  have hb : bindOk (listingParams b) = false := by
    rcases h with h | h | h <;> simp [bindOk, listingParams, numberVal, h, intBindOk]
  have hu : updateListing (listingParams b) lid db = .error () := by
    simp [updateListing, hb]
  exact ⟨by simp [putListingsB, hu], by simp [putListingsC, requireAdminC, hu]⟩

/-- C2, witness: an update with an entirely absent payload fails and changes nothing. -/
theorem c2_witness :
    putListingsB 1 {} [] emptyDb = (⟨400, .jsonErr "Błąd aktualizacji"⟩, emptyDb) ∧
    putListingsC (some "true") 1 {} [] emptyDb =
      (⟨400, .jsonErr "Błąd aktualizacji ogłoszenia"⟩, emptyDb) :=
  c2_absent_field_fails_update 1 {} [] emptyDb (Or.inl rfl)

/-- C3, counterexample: an admin-authenticated variant C DELETE of the absent
id 7 answers the ok marker, not 404. -/
theorem c3_counterexample :
    deleteListingsC (some "true") 7 emptyDb = (⟨200, .jsonOkTrue⟩, emptyDb) := by decide

/-- C3, amended: variants A and D answer 404 for a delete of an absent id, but
variants B and C run an unconditional DELETE and always answer a success
marker, present or not. -/
theorem c3_delete_absent_id
    (st : StateA) (sid : String) (ha : ∀ l ∈ st.listings, ¬ l.id = sid)
    (dbd : DbD) (lidD : Int) (hdd : ∀ l ∈ dbd.listings, ¬ l.id = lidD)
    (adminPass : String) (hp bp qp : Option String)
    (hauth : jsOrStr hp (jsOrStr bp qp) = some adminPass)
    (db : Db) (lid : Int) :
    deleteListingsA true sid st = (⟨404, .jsonErr "Nie znaleziono oferty"⟩, st) ∧
    deleteListingsD adminPass hp bp qp lidD dbd = (⟨404, .jsonErr "Not found"⟩, dbd) ∧
    (deleteListingsB lid db).1 = ⟨200, .jsonSuccessTrue⟩ ∧
    (deleteListingsC (some "true") lid db).1 = ⟨200, .jsonOkTrue⟩ := by
  have hfa : st.listings.find? (fun l => decide (l.id = sid)) = none := by
    rw [List.find?_eq_none]
    intro l hl
    simpa using ha l hl
  have hfd : dbd.listings.find? (fun l => decide (l.id = lidD)) = none := by
    rw [List.find?_eq_none]
    intro l hl
    simpa using hdd l hl
  refine ⟨?_, ?_, rfl, ?_⟩
  · simp [deleteListingsA, hfa]
  · simp [deleteListingsD, requireAdminD, hauth, hfd]
  · simp [deleteListingsC, requireAdminC]

/-- C3, witness: the four delete behaviours at concrete stores. -/
theorem c3_witness :
    deleteListingsA true "z" ⟨[], []⟩ = (⟨404, .jsonErr "Nie znaleziono oferty"⟩, ⟨[], []⟩) ∧
    deleteListingsD "Klaudia0050" (some "Klaudia0050") none none 1 ⟨[], [], 1, 1⟩ =
      (⟨404, .jsonErr "Not found"⟩, ⟨[], [], 1, 1⟩) ∧
    (deleteListingsB 5 emptyDb).1 = ⟨200, .jsonSuccessTrue⟩ ∧
    (deleteListingsC (some "true") 5 emptyDb).1 = ⟨200, .jsonOkTrue⟩ :=
  c3_delete_absent_id ⟨[], []⟩ "z" (by simp) ⟨[], [], 1, 1⟩ 1 (by simp) "Klaudia0050"
    (some "Klaudia0050") none none (by decide) emptyDb 5

/-- C4: an update of listing `lid` whose remove_images list is anything at all
never deletes an image whose owning listing reference differs from `lid` — the
DELETE statement filters on `listing_id=$1 AND id = ANY($2)`, so the foreign
image survives in both Postgres variants, whatever the cookie. -/
theorem c4_remove_images_cross_listing_isolation
    (lid : Int) (b : ReqBody) (files : List FileUpload) (db : Db) (img : Image)
    (hmem : img ∈ db.images) (hown : ¬ img.listing_id = lid) :
    img ∈ (putListingsB lid b files db).2.images ∧
    ∀ admin_auth, img ∈ (putListingsC admin_auth lid b files db).2.images := by
  have core : ∀ db1, updateListing (listingParams b) lid db = .ok db1 →
      img ∈ (insertImages lid files (removeImages lid b.remove_images db1)).2.images := by
    intro db1 h
    exact mem_insertImages files
      (mem_removeImages _ ((updateListing_images h).symm ▸ hmem) hown)
  constructor
  · rw [putListingsB_snd]
    cases h : updateListing (listingParams b) lid db with
    | error e => exact hmem
    | ok db1 => exact core db1 h
  · intro admin_auth
    by_cases hcook : admin_auth = some "true"
    · subst hcook
      rw [putListingsC_snd]
      cases h : updateListing (listingParams b) lid db with
      | error e => exact hmem
      | ok db1 => exact core db1 h
    · simpa [putListingsC, requireAdminC, hcook] using hmem

/-- C4, witness: image 5 of listing 2 survives an update of listing 1. -/
theorem c4_witness :
    img5 ∈ (putListingsB 1 {} [] dbImg2).2.images ∧
    ∀ admin_auth, img5 ∈ (putListingsC admin_auth 1 {} [] dbImg2).2.images :=
  c4_remove_images_cross_listing_isolation 1 {} [] dbImg2 img5 (by decide) (by decide)

/-- C5: deleting a listing removes every image it owned.  In variants B and C
the cascade drops all rows with that listing_id and the image id then fetches
404 (image ids unique, as the SERIAL key guarantees); in variant D the delete
removes the row's referenced image and its id then fetches 404. -/
theorem c5_delete_cascades_owned_images
    (db : Db) (lid : Int) (img : Image)
    (hmem : img ∈ db.images) (hown : img.listing_id = lid)
    (hnodup : (db.images.map Image.id).Nodup) :
    img ∉ (deleteListingsB lid db).2.images ∧
    img ∉ (deleteListingsC (some "true") lid db).2.images ∧
    getImageBC img.id (deleteListingsB lid db).2 = ⟨404, .textNotFound⟩ ∧
    (∀ (adminPass : String) (hp bp qp : Option String) (dbd : DbD) (row : ListingD) (iid : Int),
      requireAdminD adminPass hp bp qp = true →
      dbd.listings.find? (fun l => decide (l.id = row.id)) = some row →
      row.image_id = some iid → ¬ iid = 0 →
      getImageD iid (deleteListingsD adminPass hp bp qp row.id dbd).2 = ⟨404, .textNotFound⟩) := by
  have hgone : ∀ x ∈ (cascadeDelete lid db).images, ¬ x.id = img.id := by
    intro x hx
    rcases (List.mem_filter.mp hx) with ⟨hxmem, hxpred⟩
    intro hxid
    have hxy : x = img := by
      have := List.inj_on_of_nodup_map hnodup hxmem hmem hxid
      exact this
    subst hxy
    simp [hown] at hxpred
  refine ⟨?_, ?_, ?_, ?_⟩
  · intro hmem'
    exact hgone img hmem' rfl
  · intro hmem'
    have : img ∈ (cascadeDelete lid db).images := by
      simpa [deleteListingsC, requireAdminC] using hmem'
    exact hgone img this rfl
  · have hf : (cascadeDelete lid db).images.find? (fun i => decide (i.id = img.id)) = none := by
      rw [List.find?_eq_none]
      intro x hx
      simpa using hgone x hx
    simp [getImageBC, deleteListingsB, hf]
  · intro adminPass hp bp qp dbd row iid hgate hfind himg hiid
    have hf : ((dbd.images.filter (fun i => !(decide (i.id = iid)))).find?
        (fun i => decide (i.id = iid))) = none := by
      rw [List.find?_eq_none]
      intro x hx
      rcases List.mem_filter.mp hx with ⟨_, hxpred⟩
      simpa using hxpred
    simp only [deleteListingsD, hgate, if_true, hfind, himg, if_neg hiid]
    simp [getImageD, hf]

/-- C5, witness: deleting listing 3 removes its image 7 everywhere it is looked up. -/
theorem c5_witness :
    img7 ∉ (deleteListingsB 3 dbImg3).2.images ∧
    img7 ∉ (deleteListingsC (some "true") 3 dbImg3).2.images ∧
    getImageBC img7.id (deleteListingsB 3 dbImg3).2 = ⟨404, .textNotFound⟩ ∧
    (∀ (adminPass : String) (hp bp qp : Option String) (dbd : DbD) (row : ListingD) (iid : Int),
      requireAdminD adminPass hp bp qp = true →
      dbd.listings.find? (fun l => decide (l.id = row.id)) = some row →
      row.image_id = some iid → ¬ iid = 0 →
      getImageD iid (deleteListingsD adminPass hp bp qp row.id dbd).2 = ⟨404, .textNotFound⟩) :=
  c5_delete_cascades_owned_images dbImg3 3 img7 (by decide) (by decide) (by decide)

/-- C6, counterexample: variant A's create validates nothing — an authenticated
POST with an empty body succeeds (200) and persists a listing whose required
fields are the empty string and 0. -/
theorem c6_counterexample :
    (postListingsA true {} [] "id-1" 1000 ⟨[], []⟩).1.status = 200 ∧
    (postListingsA true {} [] "id-1" 1000 ⟨[], []⟩).2 =
      ⟨[⟨"id-1", "", "", "", 0, 0, 0, none, false, false, "", [], 1000⟩], []⟩ := by decide

/-- C6, amended: in the Postgres variants B and C a create missing title, city
or price fails with 400 and persists nothing (NOT NULL and INTEGER bind
failures); the JSON-file variant A performs no required-field validation and
persists the listing with empty/zero defaults. -/
theorem c6_create_missing_required
    (b : ReqBody) (files : List FileUpload) (now : Nat) (db : Db)
    (h : b.title = none ∨ b.city = none ∨ b.price = none) :
    postListingsB b files now db = (⟨400, .jsonErr "Błąd podczas dodawania ogłoszenia"⟩, db) ∧
    postListingsC (some "true") b files now db = (⟨400, .jsonErr "Błąd zapisu ogłoszenia"⟩, db) := by
  have hb : (bindOk (listingParams b) && rowOk (listingParams b)) = false := by
    rcases h with h | h | h <;>
      simp [bindOk, rowOk, listingParams, textOrNull, numberVal, h, isTextVal, isIntVal, intBindOk]
  have hi : insertListing (listingParams b) now db = .error () := by
    simp [insertListing, hb]
  exact ⟨by simp [postListingsB, hi], by simp [postListingsC, requireAdminC, hi]⟩

/-- C6, witness: the Postgres creates at an entirely empty body. -/
theorem c6_witness :
    postListingsB {} [] 0 emptyDb = (⟨400, .jsonErr "Błąd podczas dodawania ogłoszenia"⟩, emptyDb) ∧
    postListingsC (some "true") {} [] 0 emptyDb =
      (⟨400, .jsonErr "Błąd zapisu ogłoszenia"⟩, emptyDb) :=
  c6_create_missing_required {} [] 0 emptyDb (Or.inl rfl)

/-- C7: the list endpoints return the stored listings newest first, and every
mutation maintains that ordering.  Variants B/C and D sort by `created_at
DESC` in the query itself, so the ordering holds after any sequence of
mutations (stated over every variant B trace and every variant D state);
variant A's list returns the file order, which the create's unshift keeps
newest-first whenever the clock has not run backwards, and which a delete's
splice preserves unconditionally. -/
theorem c7_listings_newest_first :
    (∀ ops : List OpB, (listRows (ops.foldl applyOpB emptyDb)).Pairwise
      (fun a b => b.1.created_at ≤ a.1.created_at)) ∧
    (∀ db : DbD, (listRowsD db).Pairwise (fun a b => b.createdAt ≤ a.createdAt)) ∧
    (∀ st : StateA, (listListingsA st).body = ApiBody.jsonListA st.listings) ∧
    (∀ (auth : Bool) (b : ReqBody) (files : List String) (newId : String) (now : Nat)
      (st : StateA),
      st.listings.Pairwise (fun a b => b.createdAt ≤ a.createdAt) →
      (∀ l ∈ st.listings, l.createdAt ≤ now) →
      (postListingsA auth b files newId now st).2.listings.Pairwise
        (fun a b => b.createdAt ≤ a.createdAt)) ∧
    (∀ (auth : Bool) (id : String) (st : StateA),
      st.listings.Pairwise (fun a b => b.createdAt ≤ a.createdAt) →
      (deleteListingsA auth id st).2.listings.Pairwise
        (fun a b => b.createdAt ≤ a.createdAt)) := by
  refine ⟨?_, ?_, fun st => rfl, ?_, ?_⟩
  · intro ops
    unfold listRows
    exact (pairwise_sortByKeyDesc _ _).map _ (fun a b h => h)
  · intro db
    unfold listRowsD
    exact (pairwise_sortByKeyDesc _ _).map _ (fun a b h => h)
  · intro auth b files newId now st hsorted hclock
    cases auth with
    | false => simpa [postListingsA] using hsorted
    | true =>
      refine List.pairwise_cons.mpr ⟨?_, hsorted⟩
      intro y hy
      exact hclock y hy
  · intro auth id st hsorted
    cases auth with
    | false => simpa [deleteListingsA] using hsorted
    | true =>
      unfold deleteListingsA
      cases h : st.listings.find? (fun l => decide (l.id = id)) with
      | none => simpa using hsorted
      | some removed =>
        simp only [Bool.not_true, Bool.false_eq_true, if_false]
        exact hsorted.sublist (List.eraseP_sublist _)

/-- C8: an update never changes a listing's id or creation timestamp — the SET
list of the UPDATE statement names neither column, and the failure paths leave
the row untouched altogether; this holds for every cookie on variant C. -/
theorem c8_update_preserves_created_at
    (lid : Int) (b : ReqBody) (files : List FileUpload) (db : Db) :
    (putListingsB lid b files db).2.listings.map (fun l => (l.id, l.created_at)) =
      db.listings.map (fun l => (l.id, l.created_at)) ∧
    ∀ admin_auth,
      (putListingsC admin_auth lid b files db).2.listings.map (fun l => (l.id, l.created_at)) =
        db.listings.map (fun l => (l.id, l.created_at)) := by
  have core : ∀ db1, updateListing (listingParams b) lid db = .ok db1 →
      (insertImages lid files (removeImages lid b.remove_images db1)).2.listings.map
          (fun l => (l.id, l.created_at)) =
        db.listings.map (fun l => (l.id, l.created_at)) := by
    intro db1 h
    rw [insertImages_listings, removeImages_listings]
    exact updateListing_key h
  constructor
  · rw [putListingsB_snd]
    cases h : updateListing (listingParams b) lid db with
    | error e => rfl
    | ok db1 => exact core db1 h
  · intro admin_auth
    by_cases hcook : admin_auth = some "true"
    · subst hcook
      rw [putListingsC_snd]
      cases h : updateListing (listingParams b) lid db with
      | error e => rfl
      | ok db1 => exact core db1 h
    · simp [putListingsC, requireAdminC, hcook]

/-- C9: every login attempt with a wrong password gets one and the same fixed
401 response, whatever wrong value was supplied (variants A and C), and the
variant D gate likewise rejects every wrong credential combination uniformly —
the failure responses carry no information about the attempted credential. -/
theorem c9_wrong_credential_uniform_response
    (adminA adminC adminD : String) (p1 p2 q1 q2 : Option String) (s1 s2 : Bool)
    (h1 : ¬ p1 = some adminA) (h2 : ¬ p2 = some adminA)
    (h3 : ¬ q1 = some adminC) (h4 : ¬ q2 = some adminC)
    (hp1 bp1 qp1 hp2 bp2 qp2 : Option String)
    (h5 : ¬ jsOrStr hp1 (jsOrStr bp1 qp1) = some adminD)
    (h6 : ¬ jsOrStr hp2 (jsOrStr bp2 qp2) = some adminD) :
    (loginA adminA p1 s1).1 = (loginA adminA p2 s2).1 ∧
    (loginA adminA p1 s1).1 = ⟨401, .jsonErr "Nieprawidłowe hasło"⟩ ∧
    loginC adminC q1 = loginC adminC q2 ∧
    (loginC adminC q1).1 = ⟨401, .jsonOkFalse "Błędne hasło"⟩ ∧
    requireAdminD adminD hp1 bp1 qp1 = requireAdminD adminD hp2 bp2 qp2 ∧
    requireAdminD adminD hp1 bp1 qp1 = false := by
  simp [loginA, loginC, requireAdminD, h1, h2, h3, h4, h5, h6]

/-- C9, witness: two different wrong passwords at the default configurations. -/
theorem c9_witness :
    (loginA "33201" (some "guess") true).1 = (loginA "33201" none false).1 ∧
    (loginA "33201" (some "guess") true).1 = ⟨401, .jsonErr "Nieprawidłowe hasło"⟩ ∧
    loginC "Klaudia0050" (some "nope") = loginC "Klaudia0050" (some "") ∧
    (loginC "Klaudia0050" (some "nope")).1 = ⟨401, .jsonOkFalse "Błędne hasło"⟩ ∧
    requireAdminD "Klaudia0050" none none none =
      requireAdminD "Klaudia0050" (some "x") none none ∧
    requireAdminD "Klaudia0050" none none none = false :=
  c9_wrong_credential_uniform_response "33201" "Klaudia0050" "Klaudia0050"
    (some "guess") none (some "nope") (some "") true false
    (by decide) (by decide) (by decide) (by decide)
    none none none (some "x") none none (by decide) (by decide)

/-- C10: the facebook-reviews proxy always answers 200; its one-slot cache
changes only when the upstream fetch returned ok; and on a cache miss a thrown
fetch, a non-ok status or a non-array body all answer the empty array, a
thrown or non-ok fetch leaving the cached data and timestamp untouched. -/
theorem c10_facebook_reviews_never_errors
    (cache : FbCache) (now : Nat) (nowSec : Int) (u : FetchOutcome) :
    (facebookReviews cache now nowSec u).1.status = 200 ∧
    (¬ (facebookReviews cache now nowSec u).2 = cache → ∃ j, u = FetchOutcome.respOk j) ∧
    ((cache.data = none ∨ FB_CACHE_TTL ≤ now - cache.ts) →
      (u = .fetchFailed ∨ (∃ s, u = .respNotOk s) ∨ u = .respOk none) →
      (facebookReviews cache now nowSec u).1 = ⟨200, .jsonReviews []⟩) ∧
    ((u = .fetchFailed ∨ (∃ s, u = .respNotOk s)) →
      (facebookReviews cache now nowSec u).2 = cache) := by
  have hObOk : ∀ (cd : Option (List Review)) (cts : Nat) (j : Option (List RawReview)),
      ((⟨cd, cts⟩ : FbCache).data = none ∨ FB_CACHE_TTL ≤ now - cts) →
      FetchOutcome.respOk j = .fetchFailed ∨
        (∃ s, FetchOutcome.respOk j = .respNotOk s) ∨ FetchOutcome.respOk j = .respOk none →
      (fbFetchBranch ⟨cd, cts⟩ now nowSec (.respOk j)).1 = ⟨200, .jsonReviews []⟩ := by
    intro cd cts j _ hcase
    rcases hcase with h | ⟨s, h⟩ | h
    · exact absurd h (by simp)
    · exact absurd h (by simp)
    · injection h with h
      subst h
      rfl
  rcases cache with ⟨cd, cts⟩
  cases cd with
  | none =>
    cases u with
    | fetchFailed => simp [facebookReviews, fbFetchBranch]
    | respNotOk s => simp [facebookReviews, fbFetchBranch]
    | respOk j =>
      refine ⟨rfl, fun _ => ⟨j, rfl⟩, fun hmiss hcase => ?_, fun hcase => ?_⟩
      · exact hObOk none cts j hmiss hcase
      · rcases hcase with h | ⟨s, h⟩ <;> exact absurd h (by simp)
  | some d =>
    by_cases ht : now - cts < FB_CACHE_TTL
    · refine ⟨by simp [facebookReviews, ht], by simp [facebookReviews, ht], ?_,
        by simp [facebookReviews, ht]⟩
      intro hmiss _
      rcases hmiss with hmiss | hmiss
      · exact absurd hmiss (by simp)
      · exact absurd hmiss (Nat.not_le.mpr ht)
    · cases u with
      | fetchFailed => simp [facebookReviews, fbFetchBranch, ht]
      | respNotOk s => simp [facebookReviews, fbFetchBranch, ht]
      | respOk j =>
        refine ⟨by simp [facebookReviews, fbFetchBranch, ht],
          fun _ => ⟨j, rfl⟩, fun hmiss hcase => ?_, fun hcase => ?_⟩
        · have := hObOk (some d) cts j hmiss hcase
          simpa [facebookReviews, fbFetchBranch, ht] using this
        · rcases hcase with h | ⟨s, h⟩ <;> exact absurd h (by simp)

end Zacharska
